import Mathlib

set_option autoImplicit false

/-!
Shallow embedding of the protocol-layer composition core of the `ntex`
HTTP stack, covering:

* `src/ntex/src/http/builder.rs` — `HttpServiceBuilder` and its
  configuration and terminal operations;
* `src/ntex/src/http/client/connect.rs` — `ConnectorWrapper`, the
  `Connect` operations `send_request` / `open_tunnel`, and the
  `Socket` / `BoxedSocket` duplex-stream erasure.

Machine integers (`u64` millisecond fields) are embedded as `Nat`: the
builder only stores and forwards them, no arithmetic is performed.
Asynchronous computations are embedded by their results: every future in
the source is awaited exactly once along a straight line, so a
`sendRequest` / `openTunnel` call denotes an `Except` value.  Types that
belong to external collaborators (uri, address, body, payload, response
head, codec, contexts, buffers, error payloads) are type parameters.
-/

namespace Ntex

/-- Modelled from the spec: the keep-alive policy (the `KeepAlive` type
lives in `http/config.rs`, which is not part of the inspected source).
Variants per the spec: Disabled, Timeout(seconds), PlatformDefault. -/
inductive KeepAlive : Type
  | Disabled : KeepAlive
  | Timeout (secs : Nat) : KeepAlive
  | PlatformDefault : KeepAlive

/-- Modelled from the spec: the default expect handler (`ExpectHandler` in
`http/h1`, not part of the inspected source) is the identity pass-through
handler, a unit value. -/
inductive ExpectHandler : Type
  | mk

/-- Modelled from the spec: the default upgrade-handler type
(`UpgradeHandler<T>` in `http/h1`, not part of the inspected source); the
builder stores `Option` of it and defaults to `none`. -/
inductive UpgradeHandler : Type
  | mk

/-- `HttpServiceBuilder<T, S, X, U>` from `src/ntex/src/http/builder.rs`.
`X` is the expect-handler factory type, `U` the upgrade-handler factory
type, and `OC` stands for the boxed on-connect callback type
`Rc<dyn Fn(&T) -> Box<dyn DataFactory>>`.  The `PhantomData<(T, S)>`
marker field carries no data and is dropped. -/
structure HttpServiceBuilder (X U OC : Type) : Type where
  keep_alive : KeepAlive
  client_timeout : Nat
  client_disconnect : Nat
  handshake_timeout : Nat
  expect : X
  upgrade : Option U
  on_connect : Option OC

/-- `HttpServiceBuilder::new` (builder.rs lines 34-45). -/
def HttpServiceBuilder.new (OC : Type) :
    HttpServiceBuilder ExpectHandler UpgradeHandler OC where
  keep_alive := KeepAlive.Timeout 5
  client_timeout := 3000
  client_disconnect := 3000
  handshake_timeout := 5000
  expect := ExpectHandler.mk
  upgrade := none
  on_connect := none

/-- `HttpServiceBuilder::keep_alive` (the `Into<KeepAlive>` conversion of
the argument happens at the caller; the method stores the converted
value).  Named with a prime because the field projection takes the
source name. -/
def HttpServiceBuilder.keep_alive' {X U OC : Type}
    (b : HttpServiceBuilder X U OC) (val : KeepAlive) :
    HttpServiceBuilder X U OC :=
  { b with keep_alive := val }

/-- `HttpServiceBuilder::client_timeout`. -/
def HttpServiceBuilder.client_timeout' {X U OC : Type}
    (b : HttpServiceBuilder X U OC) (val : Nat) :
    HttpServiceBuilder X U OC :=
  { b with client_timeout := val }

/-- `HttpServiceBuilder::disconnect_timeout` (stores into the
`client_disconnect` field). -/
def HttpServiceBuilder.disconnect_timeout {X U OC : Type}
    (b : HttpServiceBuilder X U OC) (val : Nat) :
    HttpServiceBuilder X U OC :=
  { b with client_disconnect := val }

/-- `HttpServiceBuilder::ssl_handshake_timeout` (stores into the
`handshake_timeout` field). -/
def HttpServiceBuilder.ssl_handshake_timeout {X U OC : Type}
    (b : HttpServiceBuilder X U OC) (val : Nat) :
    HttpServiceBuilder X U OC :=
  { b with handshake_timeout := val }

/-- `HttpServiceBuilder::expect` — replaces the expect handler, changing
the builder's `X` type parameter; every other field is copied through
(the source constructs a fresh record listing each field).  The
`IntoServiceFactory` conversion of the argument is external; the factory
value is taken directly. -/
def HttpServiceBuilder.expect' {X U OC X1 : Type}
    (b : HttpServiceBuilder X U OC) (e : X1) :
    HttpServiceBuilder X1 U OC where
  keep_alive := b.keep_alive
  client_timeout := b.client_timeout
  client_disconnect := b.client_disconnect
  handshake_timeout := b.handshake_timeout
  expect := e
  upgrade := b.upgrade
  on_connect := b.on_connect

/-- `HttpServiceBuilder::upgrade` — installs the upgrade handler, changing
the builder's `U` type parameter; every other field is copied through. -/
def HttpServiceBuilder.upgrade' {X U OC U1 : Type}
    (b : HttpServiceBuilder X U OC) (u : U1) :
    HttpServiceBuilder X U1 OC where
  keep_alive := b.keep_alive
  client_timeout := b.client_timeout
  client_disconnect := b.client_disconnect
  handshake_timeout := b.handshake_timeout
  expect := b.expect
  upgrade := some u
  on_connect := b.on_connect

/-- `HttpServiceBuilder::on_connect` — stores the callback.  In the source
the supplied closure `f` is first wrapped as
`Rc::new(move |t| Box::new(Data(f(t))))`, a type-erasure step; `f` here
stands for that boxed, erased callback value in `OC`. -/
def HttpServiceBuilder.on_connect' {X U OC : Type}
    (b : HttpServiceBuilder X U OC) (f : OC) :
    HttpServiceBuilder X U OC :=
  { b with on_connect := some f }

/-- Modelled from the spec: `ServiceConfig` (from `http/config.rs`, not
part of the inspected source) freezes the timing policy into an immutable
record of the four configured durations. -/
structure ServiceConfig : Type where
  keep_alive : KeepAlive
  client_timeout : Nat
  client_disconnect : Nat
  handshake_timeout : Nat

/-- Modelled from the spec: `ServiceConfig::new` stores the four durations
unmodified ("this core's only obligation is to propagate the configured
durations unmodified"). -/
def ServiceConfig.new (ka : KeepAlive) (ct cd hs : Nat) : ServiceConfig :=
  ⟨ka, ct, cd, hs⟩

/-- Modelled from the spec: the HTTP/1 protocol service produced by the
builder, holding the frozen config, the application service factory and
the injected expect, upgrade and on-connect hooks (`H1Service` lives in
`http/h1`, outside the inspected source). -/
structure H1Service (S X U OC : Type) : Type where
  cfg : ServiceConfig
  srv : S
  expect : X
  upgrade : Option U
  on_connect : Option OC

/-- Modelled from the spec: `H1Service::with_config(cfg, service)` starts
from the default hooks. -/
def H1Service.with_config {S : Type} (OC : Type) (cfg : ServiceConfig)
    (srv : S) : H1Service S ExpectHandler UpgradeHandler OC :=
  ⟨cfg, srv, ExpectHandler.mk, none, none⟩

/-- Modelled from the spec: `H1Service::expect` replaces the expect hook. -/
def H1Service.expect' {S X U OC X1 : Type} (s : H1Service S X U OC)
    (e : X1) : H1Service S X1 U OC :=
  ⟨s.cfg, s.srv, e, s.upgrade, s.on_connect⟩

/-- Modelled from the spec: `H1Service::upgrade` replaces the upgrade hook
(the builder passes its whole `Option`). -/
def H1Service.upgrade' {S X U OC U1 : Type} (s : H1Service S X U OC)
    (u : Option U1) : H1Service S X U1 OC :=
  ⟨s.cfg, s.srv, s.expect, u, s.on_connect⟩

/-- Modelled from the spec: `H1Service::on_connect` installs the context
factory (the builder passes its whole `Option`). -/
def H1Service.on_connect' {S X U OC : Type} (s : H1Service S X U OC)
    (oc : Option OC) : H1Service S X U OC :=
  ⟨s.cfg, s.srv, s.expect, s.upgrade, oc⟩

/-- Modelled from the spec: the HTTP/2 protocol service produced by the
builder.  Its type `H2Service<T, S, B>` has no expect or upgrade
parameter and the record holds no such hook ("h2 ignores expect/upgrade —
HTTP/2 has no Expect/Upgrade equivalent in this design"). -/
structure H2Service (S OC : Type) : Type where
  cfg : ServiceConfig
  srv : S
  on_connect : Option OC

/-- Modelled from the spec: `H2Service::with_config(cfg, service)`. -/
def H2Service.with_config {S : Type} (OC : Type) (cfg : ServiceConfig)
    (srv : S) : H2Service S OC :=
  ⟨cfg, srv, none⟩

/-- Modelled from the spec: `H2Service::on_connect` installs the context
factory. -/
def H2Service.on_connect' {S OC : Type} (s : H2Service S OC)
    (oc : Option OC) : H2Service S OC :=
  ⟨s.cfg, s.srv, oc⟩

/-- Modelled from the spec: the protocol-negotiating service produced by
`finish` (`HttpService` in `http/service.rs`, outside the inspected
source), holding config, application service and all three hooks. -/
structure HttpService (S X U OC : Type) : Type where
  cfg : ServiceConfig
  srv : S
  expect : X
  upgrade : Option U
  on_connect : Option OC

/-- Modelled from the spec: `HttpService::with_config(cfg, service)`. -/
def HttpService.with_config {S : Type} (OC : Type) (cfg : ServiceConfig)
    (srv : S) : HttpService S ExpectHandler UpgradeHandler OC :=
  ⟨cfg, srv, ExpectHandler.mk, none, none⟩

/-- Modelled from the spec: `HttpService::expect`. -/
def HttpService.expect' {S X U OC X1 : Type} (s : HttpService S X U OC)
    (e : X1) : HttpService S X1 U OC :=
  ⟨s.cfg, s.srv, e, s.upgrade, s.on_connect⟩

/-- Modelled from the spec: `HttpService::upgrade`. -/
def HttpService.upgrade' {S X U OC U1 : Type} (s : HttpService S X U OC)
    (u : Option U1) : HttpService S X U1 OC :=
  ⟨s.cfg, s.srv, s.expect, u, s.on_connect⟩

/-- Modelled from the spec: `HttpService::on_connect`. -/
def HttpService.on_connect' {S X U OC : Type} (s : HttpService S X U OC)
    (oc : Option OC) : HttpService S X U OC :=
  ⟨s.cfg, s.srv, s.expect, s.upgrade, oc⟩

/-- `HttpServiceBuilder::h1` (builder.rs lines 176-194): builds
`ServiceConfig` from the four stored timing fields, then
`H1Service::with_config(cfg, service).expect(..).upgrade(..).on_connect(..)`.
The `IntoServiceFactory` conversion of `service` is external. -/
def HttpServiceBuilder.h1 {X U OC S : Type}
    (b : HttpServiceBuilder X U OC) (service : S) : H1Service S X U OC :=
  let cfg := ServiceConfig.new b.keep_alive b.client_timeout
    b.client_disconnect b.handshake_timeout
  H1Service.on_connect'
    (H1Service.upgrade'
      (H1Service.expect' (H1Service.with_config OC cfg service) b.expect)
      b.upgrade)
    b.on_connect

/-- `HttpServiceBuilder::h2` (builder.rs lines 197-213): builds
`ServiceConfig` from the four stored timing fields, then
`H2Service::with_config(cfg, service).on_connect(..)`; the expect and
upgrade fields do not appear in the body. -/
def HttpServiceBuilder.h2 {X U OC S : Type}
    (b : HttpServiceBuilder X U OC) (service : S) : H2Service S OC :=
  let cfg := ServiceConfig.new b.keep_alive b.client_timeout
    b.client_disconnect b.handshake_timeout
  H2Service.on_connect' (H2Service.with_config OC cfg service) b.on_connect

/-- `HttpServiceBuilder::finish` (builder.rs lines 216-235). -/
def HttpServiceBuilder.finish {X U OC S : Type}
    (b : HttpServiceBuilder X U OC) (service : S) : HttpService S X U OC :=
  let cfg := ServiceConfig.new b.keep_alive b.client_timeout
    b.client_disconnect b.handshake_timeout
  HttpService.on_connect'
    (HttpService.upgrade'
      (HttpService.expect' (HttpService.with_config OC cfg service) b.expect)
      b.upgrade)
    b.on_connect

/-! ### Client connector: `src/ntex/src/http/client/connect.rs` -/

universe u v w

/-- `Poll` from the async runtime: a poll either yields a value or is
pending. -/
inductive Poll (A : Type) : Type
  | Ready (a : A)
  | Pending

/-- Modelled from the spec: the duplex byte-stream contract
(`AsyncRead + AsyncWrite`, external collaborators) of a concrete
transport type `T`, as a method table.  `Ctx` is the task context, `Buf`
the byte-buffer type, `E` the transport's error type.  Each poll method
denotes the result of one poll call; internal state mutation of the
transport is not observable at this interface and is elided. -/
structure AsyncRW (T Ctx Buf E : Type) : Type where
  prepare_uninitialized_buffer : T → Buf → Bool
  poll_read : T → Ctx → Buf → Poll (Except E Nat)
  poll_write : T → Ctx → Buf → Poll (Except E Nat)
  poll_flush : T → Ctx → Poll (Except E Unit)
  poll_shutdown : T → Ctx → Poll (Except E Unit)

/-- `struct Socket<T: AsyncRead + AsyncWrite + Unpin>(T)` from connect.rs:
the adapter implementing `AsyncSocket` for any concrete transport, with
no added state.  `inner` is the tuple field `.0`. -/
structure Socket (T : Type) : Type where
  inner : T

/-- `Socket::as_read` returns `&self.0`. -/
def Socket.as_read {T : Type} (s : Socket T) : T := s.inner

/-- `Socket::as_read_mut` returns `&mut self.0`. -/
def Socket.as_read_mut {T : Type} (s : Socket T) : T := s.inner

/-- `Socket::as_write` returns `&mut self.0`. -/
def Socket.as_write {T : Type} (s : Socket T) : T := s.inner

/-- `pub struct BoxedSocket(Box<dyn AsyncSocket>)` from connect.rs: owns
exactly one boxed `dyn AsyncSocket`, i.e. an erased triple of a concrete
transport type, its duplex method table, and the `Socket` adapter wrapping
one value of that type. -/
structure BoxedSocket (Ctx Buf E : Type) : Type 1 where
  T : Type
  inst : AsyncRW T Ctx Buf E
  sock : Socket T

/-- `impl AsyncRead for BoxedSocket`: `prepare_uninitialized_buffer`
forwards to `self.0.as_read().prepare_uninitialized_buffer(buf)`
(connect.rs lines 136-141). -/
def BoxedSocket.prepare_uninitialized_buffer {Ctx Buf E : Type}
    (b : BoxedSocket Ctx Buf E) (buf : Buf) : Bool :=
  b.inst.prepare_uninitialized_buffer (Socket.as_read b.sock) buf

/-- `impl AsyncRead for BoxedSocket`: `poll_read` forwards to
`Pin::new(self.get_mut().0.as_read_mut()).poll_read(cx, buf)`. -/
def BoxedSocket.poll_read {Ctx Buf E : Type} (b : BoxedSocket Ctx Buf E)
    (cx : Ctx) (buf : Buf) : Poll (Except E Nat) :=
  b.inst.poll_read (Socket.as_read_mut b.sock) cx buf

/-- `impl AsyncWrite for BoxedSocket`: `poll_write` forwards to
`Pin::new(self.get_mut().0.as_write()).poll_write(cx, buf)`. -/
def BoxedSocket.poll_write {Ctx Buf E : Type} (b : BoxedSocket Ctx Buf E)
    (cx : Ctx) (buf : Buf) : Poll (Except E Nat) :=
  b.inst.poll_write (Socket.as_write b.sock) cx buf

/-- `impl AsyncWrite for BoxedSocket`: `poll_flush` forwards to
`Pin::new(self.get_mut().0.as_write()).poll_flush(cx)`. -/
def BoxedSocket.poll_flush {Ctx Buf E : Type} (b : BoxedSocket Ctx Buf E)
    (cx : Ctx) : Poll (Except E Unit) :=
  b.inst.poll_flush (Socket.as_write b.sock) cx

/-- `impl AsyncWrite for BoxedSocket`: `poll_shutdown` forwards to
`Pin::new(self.get_mut().0.as_write()).poll_shutdown(cx)`. -/
def BoxedSocket.poll_shutdown {Ctx Buf E : Type} (b : BoxedSocket Ctx Buf E)
    (cx : Ctx) : Poll (Except E Unit) :=
  b.inst.poll_shutdown (Socket.as_write b.sock) cx

/-- Modelled from the spec: the framing layer (`Framed` from the codec
crate, an external collaborator) over a byte stream `IoT` with codec
`Cod`; its read/write buffers are carried inside `Cod` here, untouched by
this core.  `map_stream` embeds `Framed::map_io`, which replaces the
stream and keeps everything else. -/
structure Framed (IoT : Type u) (Cod : Type v) : Type (max u v) where
  stream : IoT
  codec : Cod

/-- `Framed::map_io`: apply `f` to the stream, keep the codec state. -/
def Framed.map_stream {IoT : Type u} {IoT2 : Type v} {Cod : Type w}
    (f : IoT → IoT2) (fr : Framed IoT Cod) : Framed IoT2 Cod :=
  ⟨f fr.stream, fr.codec⟩

/-- `Connect` from the client module, used as `ClientConnect` in
connect.rs: the connection target `{uri, addr}` handed to the resolver
(spec: ConnectionTarget). -/
structure ClientConnect (Uri Addr : Type) : Type where
  uri : Uri
  addr : Option Addr

/-- Modelled from the spec: a request head; only its `uri` field is
consulted by this core (cloned into the target), `rest` stands for all
remaining head data, carried untouched. -/
structure RequestHead (Uri R : Type) : Type where
  uri : Uri
  rest : R

/-- Modelled from the spec: `RequestHeadType`, an owned-or-shared request
head; `as_ref` yields the underlying head. -/
structure RequestHeadType (Uri R : Type) : Type where
  head : RequestHead Uri R

/-- `RequestHeadType::as_ref`. -/
def RequestHeadType.as_ref {Uri R : Type} (h : RequestHeadType Uri R) :
    RequestHead Uri R := h.head

/-- Modelled from the spec: `SendRequestError` is a superset of the
resolver's `ConnectError` (the `connect` variant, produced by the `From`
conversion the `?` operator applies) plus protocol-level send/receive
failure (the `protocol` variant, already carried by the connection's own
operations). -/
inductive SendRequestError (CE PE : Type) : Type
  | connect (e : CE)
  | protocol (e : PE)

/-- Modelled from the spec: `ClientResponse::new(head, payload)` pairs the
returned response head with the payload. -/
structure ClientResponse (RH PL : Type) : Type where
  head : RH
  payload : PL

/-- `ClientResponse::new`. -/
def ClientResponse.new {RH PL : Type} (h : RH) (p : PL) :
    ClientResponse RH PL := ⟨h, p⟩

/-- Modelled from the spec: the `Connection` capability consumed by the
wrapper: `send_request(head, body) -> Result<(head, payload), _>` and
`open_tunnel(head) -> Result<(head, framed transport), _>`, both failing
with `SendRequestError`. -/
structure Connection (Uri R BodyT RH PL IoT Cod CE PE : Type) : Type where
  send_request : RequestHeadType Uri R → BodyT →
    Except (SendRequestError CE PE) (RH × PL)
  open_tunnel : RequestHeadType Uri R →
    Except (SendRequestError CE PE) (RH × Framed IoT Cod)

/-- `pub(super) struct ConnectorWrapper<T>(pub(crate) T)`: wraps the
resolver service; `service` denotes the wrapped service's
`Service::call`, resolving a target to a connection or a `ConnectError`
of type `CE`. -/
structure ConnectorWrapper (Uri Addr CE C : Type) : Type where
  service : ClientConnect Uri Addr → Except CE C

/-- `ConnectorWrapper::send_request` (connect.rs lines 52-73): call the
resolver on `ClientConnect { uri: head.as_ref().uri.clone(), addr }`
(`?` converts a resolver error into `SendRequestError`), then call the
connection's `send_request(head, body)` and map the `(head, payload)`
pair into `ClientResponse::new(head, payload)`. -/
def ConnectorWrapper.send_request
    {Uri Addr R BodyT RH PL IoT Cod CE PE : Type}
    (w : ConnectorWrapper Uri Addr CE
      (Connection Uri R BodyT RH PL IoT Cod CE PE))
    (head : RequestHeadType Uri R) (body : BodyT) (addr : Option Addr) :
    Except (SendRequestError CE PE) (ClientResponse RH PL) :=
  match w.service ⟨(RequestHeadType.as_ref head).uri, addr⟩ with
  | Except.error e => Except.error (SendRequestError.connect e)
  | Except.ok connection =>
      Except.map (fun p => ClientResponse.new p.1 p.2)
        (Connection.send_request connection head body)

/-- `ConnectorWrapper::open_tunnel` (connect.rs lines 75-104): resolve the
same target, then call the connection's `open_tunnel(head)`; on success,
`framed.map_io(|t| BoxedSocket(Box::new(Socket(t))))` erases the concrete
transport and the pair `(head, framed)` is returned.  The `AsyncRW`
method table `inst` stands for the `AsyncRead + AsyncWrite` trait bound
on the connection's transport type. -/
def ConnectorWrapper.open_tunnel
    {Uri Addr R BodyT RH PL IoT Cod CE PE Ctx Buf E : Type}
    (inst : AsyncRW IoT Ctx Buf E)
    (w : ConnectorWrapper Uri Addr CE
      (Connection Uri R BodyT RH PL IoT Cod CE PE))
    (head : RequestHeadType Uri R) (addr : Option Addr) :
    Except (SendRequestError CE PE)
      (RH × Framed (BoxedSocket Ctx Buf E) Cod) :=
  match w.service ⟨(RequestHeadType.as_ref head).uri, addr⟩ with
  | Except.error e => Except.error (SendRequestError.connect e)
  | Except.ok connection =>
      match Connection.open_tunnel connection head with
      | Except.error e => Except.error e
      | Except.ok (head2, framed) =>
          Except.ok (head2,
            Framed.map_stream
              (fun t => BoxedSocket.mk IoT inst (Socket.mk t)) framed)

/-! ### Concrete instances used to evaluate the embedding on closed inputs -/

/-- A concrete duplex method table on `Unit` transports; its
zero-initialization hint answers `true`, so it also distinguishes
forwarding from a constant-`false` implementation. -/
def unitRW : AsyncRW Unit Unit Unit Unit where
  prepare_uninitialized_buffer := fun _ _ => true
  poll_read := fun _ _ _ => Poll.Ready (Except.ok 0)
  poll_write := fun _ _ _ => Poll.Ready (Except.ok 0)
  poll_flush := fun _ _ => Poll.Ready (Except.ok ())
  poll_shutdown := fun _ _ => Poll.Ready (Except.ok ())

/-- A concrete request head (uri = 1) over `Nat` uris. -/
def head0 : RequestHeadType Nat Unit := ⟨⟨1, ()⟩⟩

/-- A concrete connection that answers every request with head 7 /
payload 9 and every tunnel with head 7 over a `Unit` transport. -/
def connOk : Connection Nat Unit Nat Nat Nat Unit Unit Nat Nat where
  send_request := fun _ _ => Except.ok (7, 9)
  open_tunnel := fun _ => Except.ok (7, ⟨(), ()⟩)

/-- A concrete connection whose operations fail at the protocol level. -/
def connErr : Connection Nat Unit Nat Nat Nat Unit Unit Nat Nat where
  send_request := fun _ _ => Except.error (SendRequestError.protocol 11)
  open_tunnel := fun _ => Except.error (SendRequestError.protocol 12)

/-- A wrapper whose resolver always yields `connOk`. -/
def wOk : ConnectorWrapper Nat Nat Nat
    (Connection Nat Unit Nat Nat Nat Unit Unit Nat Nat) where
  service := fun _ => Except.ok connOk

/-- A wrapper whose resolver always fails with `ConnectError` value 3. -/
def wErr : ConnectorWrapper Nat Nat Nat
    (Connection Nat Unit Nat Nat Nat Unit Unit Nat Nat) where
  service := fun _ => Except.error 3

/-- A wrapper whose resolver succeeds but hands back `connErr`. -/
def wConnErr : ConnectorWrapper Nat Nat Nat
    (Connection Nat Unit Nat Nat Nat Unit Unit Nat Nat) where
  service := fun _ => Except.ok connErr

/-! ### Claim theorems -/

/-- C1: `HttpServiceBuilder::new()` returns a builder whose fields are
exactly the documented defaults — keep_alive = Timeout(5),
client_timeout = 3000, client_disconnect = 3000,
handshake_timeout = 5000, expect = the identity pass-through
`ExpectHandler`, upgrade = none, on_connect = none — and a build with no
overrides freezes the config `{Timeout 5, 3000, 3000, 5000}`. -/
theorem C1_builder_defaults :
    ∀ (OC S : Type) (s : S),
      (HttpServiceBuilder.new OC).keep_alive = KeepAlive.Timeout 5 ∧
      (HttpServiceBuilder.new OC).client_timeout = 3000 ∧
      (HttpServiceBuilder.new OC).client_disconnect = 3000 ∧
      (HttpServiceBuilder.new OC).handshake_timeout = 5000 ∧
      (HttpServiceBuilder.new OC).expect = ExpectHandler.mk ∧
      (HttpServiceBuilder.new OC).upgrade = none ∧
      (HttpServiceBuilder.new OC).on_connect = none ∧
      (HttpServiceBuilder.finish (HttpServiceBuilder.new OC) s).cfg =
        ServiceConfig.new (KeepAlive.Timeout 5) 3000 3000 5000 ∧
      (HttpServiceBuilder.h1 (HttpServiceBuilder.new OC) s).cfg =
        ServiceConfig.new (KeepAlive.Timeout 5) 3000 3000 5000 ∧
      (HttpServiceBuilder.h2 (HttpServiceBuilder.new OC) s).cfg =
        ServiceConfig.new (KeepAlive.Timeout 5) 3000 3000 5000 :=
  fun _ _ _ =>
    ⟨rfl, rfl, rfl, rfl, rfl, rfl, rfl, rfl, rfl, rfl⟩

/-- C2: each configuration method changes only its designated field:
`expect` replaces only the expect handler, `upgrade` only the upgrade
handler, each timing setter (`keep_alive`, `client_timeout`,
`disconnect_timeout`, `ssl_handshake_timeout`) only its own duration,
and `on_connect` only the context factory; every other field is
preserved verbatim. -/
theorem C2_setters_frame :
    ∀ (X U OC X1 U1 : Type) (b : HttpServiceBuilder X U OC)
      (ka : KeepAlive) (n : Nat) (e : X1) (u : U1) (f : OC),
      ((HttpServiceBuilder.expect' b e).keep_alive = b.keep_alive ∧
       (HttpServiceBuilder.expect' b e).client_timeout = b.client_timeout ∧
       (HttpServiceBuilder.expect' b e).client_disconnect = b.client_disconnect ∧
       (HttpServiceBuilder.expect' b e).handshake_timeout = b.handshake_timeout ∧
       (HttpServiceBuilder.expect' b e).expect = e ∧
       (HttpServiceBuilder.expect' b e).upgrade = b.upgrade ∧
       (HttpServiceBuilder.expect' b e).on_connect = b.on_connect) ∧
      ((HttpServiceBuilder.upgrade' b u).keep_alive = b.keep_alive ∧
       (HttpServiceBuilder.upgrade' b u).client_timeout = b.client_timeout ∧
       (HttpServiceBuilder.upgrade' b u).client_disconnect = b.client_disconnect ∧
       (HttpServiceBuilder.upgrade' b u).handshake_timeout = b.handshake_timeout ∧
       (HttpServiceBuilder.upgrade' b u).expect = b.expect ∧
       (HttpServiceBuilder.upgrade' b u).upgrade = some u ∧
       (HttpServiceBuilder.upgrade' b u).on_connect = b.on_connect) ∧
      (HttpServiceBuilder.keep_alive' b ka =
        { b with keep_alive := ka }) ∧
      (HttpServiceBuilder.client_timeout' b n =
        { b with client_timeout := n }) ∧
      (HttpServiceBuilder.disconnect_timeout b n =
        { b with client_disconnect := n }) ∧
      (HttpServiceBuilder.ssl_handshake_timeout b n =
        { b with handshake_timeout := n }) ∧
      (HttpServiceBuilder.on_connect' b f =
        { b with on_connect := some f }) :=
  fun _ _ _ _ _ _ _ _ _ _ _ =>
    ⟨⟨rfl, rfl, rfl, rfl, rfl, rfl, rfl⟩,
     ⟨rfl, rfl, rfl, rfl, rfl, rfl, rfl⟩,
     rfl, rfl, rfl, rfl, rfl⟩

/-- C3: each terminal operation `h1`, `h2`, `finish` builds the frozen
`ServiceConfig` from exactly the four timing fields stored in the builder
at call time, passing each duration through unmodified. -/
theorem C3_terminal_ops_freeze_timing :
    ∀ (X U OC S : Type) (b : HttpServiceBuilder X U OC) (s : S),
      (HttpServiceBuilder.h1 b s).cfg =
        ServiceConfig.new b.keep_alive b.client_timeout
          b.client_disconnect b.handshake_timeout ∧
      (HttpServiceBuilder.h2 b s).cfg =
        ServiceConfig.new b.keep_alive b.client_timeout
          b.client_disconnect b.handshake_timeout ∧
      (HttpServiceBuilder.finish b s).cfg =
        ServiceConfig.new b.keep_alive b.client_timeout
          b.client_disconnect b.handshake_timeout :=
  fun _ _ _ _ _ _ => ⟨rfl, rfl, rfl⟩

/-- C4: `h2` injects only the timing configuration and the on-connect
context factory: two builders agreeing on the four timing fields and on
`on_connect` — with arbitrary, even differently-typed, expect and
upgrade handlers — produce the same `H2Service`; whereas `h1` and
`finish` inject the expect handler, the upgrade handler and the context
factory into the built service. -/
theorem C4_h2_ignores_expect_upgrade :
    ∀ (X U OC S : Type) (b : HttpServiceBuilder X U OC) (s : S)
      (X1 U1 X2 U2 : Type) (ka : KeepAlive) (ct cd hs : Nat)
      (e1 : X1) (u1 : Option U1) (e2 : X2) (u2 : Option U2)
      (oc : Option OC),
      ((HttpServiceBuilder.h2 b s).cfg =
          ServiceConfig.new b.keep_alive b.client_timeout
            b.client_disconnect b.handshake_timeout ∧
        (HttpServiceBuilder.h2 b s).on_connect = b.on_connect) ∧
      HttpServiceBuilder.h2
          (HttpServiceBuilder.mk ka ct cd hs e1 u1 oc) s =
        HttpServiceBuilder.h2
          (HttpServiceBuilder.mk ka ct cd hs e2 u2 oc) s ∧
      ((HttpServiceBuilder.h1 b s).expect = b.expect ∧
       (HttpServiceBuilder.h1 b s).upgrade = b.upgrade ∧
       (HttpServiceBuilder.h1 b s).on_connect = b.on_connect) ∧
      ((HttpServiceBuilder.finish b s).expect = b.expect ∧
       (HttpServiceBuilder.finish b s).upgrade = b.upgrade ∧
       (HttpServiceBuilder.finish b s).on_connect = b.on_connect) :=
  fun _ _ _ _ _ _ _ _ _ _ _ _ _ _ _ _ _ _ _ =>
    ⟨⟨rfl, rfl⟩, rfl, ⟨rfl, rfl, rfl⟩, ⟨rfl, rfl, rfl⟩⟩

/-- C5: `send_request` resolves `ClientConnect {uri: head.uri, addr}`
through the wrapped resolver, then calls the connection's
`send_request(head, body)`, and on success maps the returned `(head,
payload)` pair into `ClientResponse::new(head, payload)`. -/
theorem C5_send_request_success :
    ∀ (Uri Addr R BodyT RH PL IoT Cod CE PE : Type)
      (w : ConnectorWrapper Uri Addr CE
        (Connection Uri R BodyT RH PL IoT Cod CE PE))
      (head : RequestHeadType Uri R) (body : BodyT) (addr : Option Addr)
      (conn : Connection Uri R BodyT RH PL IoT Cod CE PE)
      (rh : RH) (pl : PL),
      w.service ⟨(RequestHeadType.as_ref head).uri, addr⟩ =
        Except.ok conn →
      Connection.send_request conn head body = Except.ok (rh, pl) →
      ConnectorWrapper.send_request w head body addr =
        Except.ok (ClientResponse.new rh pl) := by
  intro Uri Addr R BodyT RH PL IoT Cod CE PE w head body addr conn rh pl
  intro hres hsend
  simp only [ConnectorWrapper.send_request, hres, hsend, Except.map]

/-- Witness for C5 on concrete inputs. -/
theorem C5_send_request_success_witness :
    ConnectorWrapper.send_request wOk head0 0 none =
      Except.ok (ClientResponse.new 7 9) :=
  C5_send_request_success Nat Nat Unit Nat Nat Nat Unit Unit Nat Nat
    wOk head0 0 none connOk 7 9 rfl rfl

/-- C6: if the resolver fails, both `send_request` and `open_tunnel`
return the resolver error converted into `SendRequestError` (the
`connect` variant) and the connection's send/tunnel path contributes
nothing to the result; failures after a connection is obtained surface
as the connection's own `SendRequestError`, unchanged. -/
theorem C6_failures_surface_as_send_request_error :
    ∀ (Uri Addr R BodyT RH PL IoT Cod CE PE Ctx Buf E : Type)
      (inst : AsyncRW IoT Ctx Buf E)
      (w : ConnectorWrapper Uri Addr CE
        (Connection Uri R BodyT RH PL IoT Cod CE PE))
      (head : RequestHeadType Uri R) (body : BodyT) (addr : Option Addr)
      (e : CE) (conn : Connection Uri R BodyT RH PL IoT Cod CE PE)
      (err errt : SendRequestError CE PE),
      (w.service ⟨(RequestHeadType.as_ref head).uri, addr⟩ =
          Except.error e →
        ConnectorWrapper.send_request w head body addr =
          Except.error (SendRequestError.connect e) ∧
        ConnectorWrapper.open_tunnel inst w head addr =
          Except.error (SendRequestError.connect e)) ∧
      (w.service ⟨(RequestHeadType.as_ref head).uri, addr⟩ =
          Except.ok conn →
        (Connection.send_request conn head body = Except.error err →
          ConnectorWrapper.send_request w head body addr =
            Except.error err) ∧
        (Connection.open_tunnel conn head = Except.error errt →
          ConnectorWrapper.open_tunnel inst w head addr =
            Except.error errt)) := by
  intro Uri Addr R BodyT RH PL IoT Cod CE PE Ctx Buf E inst w head body
  intro addr e conn err errt
  refine ⟨fun h => ⟨?_, ?_⟩, fun h => ⟨fun hs => ?_, fun ht => ?_⟩⟩
  · simp only [ConnectorWrapper.send_request, h]
  · simp only [ConnectorWrapper.open_tunnel, h]
  · simp only [ConnectorWrapper.send_request, h, hs, Except.map]
  · simp only [ConnectorWrapper.open_tunnel, h, ht]

/-- Witness for C6 on concrete inputs: a resolver that always fails, and
a resolver that yields a connection whose operations fail. -/
theorem C6_failures_surface_witness :
    (ConnectorWrapper.send_request wErr head0 0 none =
        Except.error (SendRequestError.connect 3) ∧
      ConnectorWrapper.open_tunnel unitRW wErr head0 none =
        Except.error (SendRequestError.connect 3)) ∧
    (ConnectorWrapper.send_request wConnErr head0 0 none =
        Except.error (SendRequestError.protocol 11) ∧
      ConnectorWrapper.open_tunnel unitRW wConnErr head0 none =
        Except.error (SendRequestError.protocol 12)) :=
  ⟨(C6_failures_surface_as_send_request_error Nat Nat Unit Nat Nat Nat
      Unit Unit Nat Nat Unit Unit Unit unitRW wErr head0 0 none 3 connOk
      (SendRequestError.protocol 11) (SendRequestError.protocol 12)).1 rfl,
   ((C6_failures_surface_as_send_request_error Nat Nat Unit Nat Nat Nat
      Unit Unit Nat Nat Unit Unit Unit unitRW wConnErr head0 0 none 3
      connErr (SendRequestError.protocol 11)
      (SendRequestError.protocol 12)).2 rfl).1 rfl,
   ((C6_failures_surface_as_send_request_error Nat Nat Unit Nat Nat Nat
      Unit Unit Nat Nat Unit Unit Unit unitRW wConnErr head0 0 none 3
      connErr (SendRequestError.protocol 11)
      (SendRequestError.protocol 12)).2 rfl).2 rfl⟩

/-- C7: on a successful `open_tunnel`, the concrete transport inside the
returned framed stream is wrapped into exactly one `BoxedSocket` (one
`Socket` adapter inside one erased box) via the framing layer's
stream-mapping operation, and the response head is returned unchanged. -/
theorem C7_tunnel_single_erasure :
    ∀ (Uri Addr R BodyT RH PL IoT Cod CE PE Ctx Buf E : Type)
      (inst : AsyncRW IoT Ctx Buf E)
      (w : ConnectorWrapper Uri Addr CE
        (Connection Uri R BodyT RH PL IoT Cod CE PE))
      (head : RequestHeadType Uri R) (addr : Option Addr)
      (conn : Connection Uri R BodyT RH PL IoT Cod CE PE)
      (rh : RH) (framed : Framed IoT Cod),
      w.service ⟨(RequestHeadType.as_ref head).uri, addr⟩ =
        Except.ok conn →
      Connection.open_tunnel conn head = Except.ok (rh, framed) →
      ConnectorWrapper.open_tunnel inst w head addr =
        Except.ok (rh,
          Framed.map_stream
            (fun t => BoxedSocket.mk IoT inst (Socket.mk t)) framed) := by
  intro Uri Addr R BodyT RH PL IoT Cod CE PE Ctx Buf E inst w head addr
  intro conn rh framed hres ht
  simp only [ConnectorWrapper.open_tunnel, hres, ht]

/-- Witness for C7 on concrete inputs. -/
theorem C7_tunnel_single_erasure_witness :
    ConnectorWrapper.open_tunnel unitRW wOk head0 none =
      Except.ok (7,
        Framed.map_stream
          (fun t => BoxedSocket.mk Unit unitRW (Socket.mk t))
          (Framed.mk () ())) :=
  C7_tunnel_single_erasure Nat Nat Unit Nat Nat Nat Unit Unit Nat Nat
    Unit Unit Unit unitRW wOk head0 none connOk 7 (Framed.mk () ()) rfl rfl

/-- C8: every `BoxedSocket` poll operation returns exactly what the
wrapped concrete transport returns for the same inputs — `Ready` values,
`Pending`, and errors pass through unchanged, with no transformation or
error translation. -/
theorem C8_boxed_socket_forwards :
    ∀ (T Ctx Buf E : Type) (inst : AsyncRW T Ctx Buf E) (t : T)
      (cx : Ctx) (rbuf wbuf : Buf),
      BoxedSocket.poll_read (BoxedSocket.mk T inst (Socket.mk t)) cx rbuf =
        AsyncRW.poll_read inst t cx rbuf ∧
      BoxedSocket.poll_write (BoxedSocket.mk T inst (Socket.mk t)) cx wbuf =
        AsyncRW.poll_write inst t cx wbuf ∧
      BoxedSocket.poll_flush (BoxedSocket.mk T inst (Socket.mk t)) cx =
        AsyncRW.poll_flush inst t cx ∧
      BoxedSocket.poll_shutdown (BoxedSocket.mk T inst (Socket.mk t)) cx =
        AsyncRW.poll_shutdown inst t cx :=
  fun _ _ _ _ _ _ _ _ _ => ⟨rfl, rfl, rfl, rfl⟩

/-- C9: `BoxedSocket` forwards the zero-initialization hint to the
wrapped transport — its answer always equals the transport's own answer
— and it is not the constant `false` default: the concrete `unitRW`
transport answers `true` through the box. -/
theorem C9_prepare_hint_forwards :
    (∀ (T Ctx Buf E : Type) (inst : AsyncRW T Ctx Buf E) (t : T)
      (buf : Buf),
      BoxedSocket.prepare_uninitialized_buffer
          (BoxedSocket.mk T inst (Socket.mk t)) buf =
        AsyncRW.prepare_uninitialized_buffer inst t buf) ∧
    BoxedSocket.prepare_uninitialized_buffer
        (BoxedSocket.mk Unit unitRW (Socket.mk ())) () = true :=
  ⟨fun _ _ _ _ _ _ _ => rfl, rfl⟩

/-- C10: resolution does not alter the request head: the target handed to
the resolver is built from the head's uri, and when a connection comes
back, both operations hand the connection exactly the head the caller
supplied — the whole result is the connection's answer for that very
head, mapped as in the source. -/
theorem C10_head_passed_unchanged :
    ∀ (Uri Addr R BodyT RH PL IoT Cod CE PE Ctx Buf E : Type)
      (inst : AsyncRW IoT Ctx Buf E)
      (w : ConnectorWrapper Uri Addr CE
        (Connection Uri R BodyT RH PL IoT Cod CE PE))
      (head : RequestHeadType Uri R) (body : BodyT) (addr : Option Addr)
      (conn : Connection Uri R BodyT RH PL IoT Cod CE PE),
      w.service ⟨(RequestHeadType.as_ref head).uri, addr⟩ =
        Except.ok conn →
      ConnectorWrapper.send_request w head body addr =
        Except.map (fun p => ClientResponse.new p.1 p.2)
          (Connection.send_request conn head body) ∧
      ConnectorWrapper.open_tunnel inst w head addr =
        Except.map
          (fun p => (p.1,
            Framed.map_stream
              (fun t => BoxedSocket.mk IoT inst (Socket.mk t)) p.2))
          (Connection.open_tunnel conn head) := by
  intro Uri Addr R BodyT RH PL IoT Cod CE PE Ctx Buf E inst w head body
  intro addr conn h
  constructor
  · simp only [ConnectorWrapper.send_request, h]
  · simp only [ConnectorWrapper.open_tunnel, h]
    cases hco : Connection.open_tunnel conn head with
    | error e => rfl
    | ok p =>
        obtain ⟨rh, fr⟩ := p
        rfl

/-- Witness for C10 on concrete inputs. -/
theorem C10_head_passed_unchanged_witness :
    ConnectorWrapper.send_request wOk head0 0 none =
      Except.map (fun p => ClientResponse.new p.1 p.2)
        (Connection.send_request connOk head0 0) ∧
    ConnectorWrapper.open_tunnel unitRW wOk head0 none =
      Except.map
        (fun p => (p.1,
          Framed.map_stream
            (fun t => BoxedSocket.mk Unit unitRW (Socket.mk t)) p.2))
        (Connection.open_tunnel connOk head0) :=
  C10_head_passed_unchanged Nat Nat Unit Nat Nat Nat Unit Unit Nat Nat
    Unit Unit Unit unitRW wOk head0 0 none connOk rfl

end Ntex
